import Mathlib

/-!
Shallow embedding of `src/utils/__init__.py` from `dlakaplan/timing_utils`.

Conventions of the embedding:
* MJD values, uncertainties, residuals and signal-to-noise ratios are
  rationals (`ℚ`), standing for the Python floats.
* A PINT `TOAs` object is a current table of records plus the stack of
  previously selected tables (`TOAs.select` pushes a copy of the current
  table and restricts it by a boolean mask; `TOAs.unselect` pops).
* Python dictionaries with possibly-missing keys become `Option` fields;
  a missing key makes the embedded function return
  `Except.error "KeyError: ..."`, mirroring the raised `KeyError`.
* Python truthiness of configuration values is modelled by `PyVal.truthy`.
* The filesystem is a map from filenames to contents; `open(f,'w')` plus
  writes become `writeFile`.
* `date.today().strftime('%Y%m%d')` is passed in as an explicit
  `date_str` argument, since the current date is an ambient input.
* `matplotlib` calls that add a data series (`plt.errorbar`) are recorded
  as `PlotElem` values; figure decorations (title, labels, grid, legend)
  carry no data and are not recorded.
-/

set_option autoImplicit false

/-- A single time-of-arrival record: timestamp (MJD, days), measurement
uncertainty, observing-site identifier, and the tagged `snr` flag value. -/
structure Toa where
  mjd : ℚ
  err : ℚ
  obs : String
  snr : ℚ
deriving DecidableEq, Repr

/-- A PINT `TOAs` object: the currently selected table plus the stack of
previously saved tables (`table_selects`) used by `unselect`. -/
structure TOAs where
  table : List Toa
  table_selects : List (List Toa)
deriving DecidableEq, Repr

/-- Keep the entries of `l` at the positions where `mask` holds
(numpy-style boolean-mask indexing `l[mask]`). -/
def applyMask {α : Type} : List α → List Bool → List α
  | x :: xs, b :: bs => if b then x :: applyMask xs bs else applyMask xs bs
  | _, _ => []

/-- `TOAs.select(mask)`: save the current table on the stack and restrict
the current table to the rows where `mask` is true. -/
def TOAs.select (t : TOAs) (mask : List Bool) : TOAs :=
  { table := applyMask t.table mask, table_selects := t.table :: t.table_selects }

/-- `TOAs.unselect()`: restore the most recently saved table (a no-op when
no table was saved, as in PINT). -/
def TOAs.unselect (t : TOAs) : TOAs :=
  match t.table_selects with
  | [] => t
  | prev :: rest => { table := prev, table_selects := rest }

/-- `toas.get_mjds()` over the active selection. -/
def get_mjds (t : TOAs) : List ℚ := t.table.map Toa.mjd

/-- `toas.get_errors()` over the active selection. -/
def get_errors (t : TOAs) : List ℚ := t.table.map Toa.err

/-- `toas.get_obss()` over the active selection. -/
def get_obss (t : TOAs) : List String := t.table.map Toa.obs

/-- `toas.get_flag_value('snr')`: the list of flag values together with the
list of indices at which the flag is present (here: all indices, since every
embedded record carries `snr`). -/
def get_flag_value_snr (t : TOAs) : List ℚ × List ℕ :=
  (t.table.map Toa.snr, List.range t.table.length)

/-- `fitter.toas.observatories`: the distinct observing sites present in the
active selection. -/
def observatories (t : TOAs) : List String := (get_obss t).dedup

/-- A Python value as it appears in the yaml configuration, as far as the
code consults it: `None`, a boolean, or a number. -/
inductive PyVal where
  | pynone : PyVal
  | pybool : Bool → PyVal
  | pynum : ℚ → PyVal
deriving DecidableEq, Repr

/-- Python truthiness: `None` and `False` and `0` are falsy. -/
def PyVal.truthy : PyVal → Bool
  | .pynone => false
  | .pybool b => b
  | .pynum q => decide (q ≠ 0)

/-- Numeric coercion, used when a truthy bound is multiplied by `u.d` and
compared against MJDs (`True` coerces to 1 as in Python). -/
def PyVal.toRat : PyVal → ℚ
  | .pynone => 0
  | .pybool b => if b then 1 else 0
  | .pynum q => q

/-- The `ignore` sub-mapping of the configuration: each key may be missing
(`none`) or present with a `PyVal`. -/
structure Ignore where
  mjdStart : Option PyVal
  mjdEnd : Option PyVal
deriving DecidableEq, Repr

/-- The part of the yaml configuration dictionary that `apply_mjd_cut`
reads: the `ignore` key may itself be missing. -/
structure Config where
  ignore : Option Ignore
deriving DecidableEq, Repr

/-- The lower-bound mask of `apply_mjd_cut`: when the configured
`mjd-start` value is truthy, `toas.get_mjds() > mjd_min*u.d` (strict);
otherwise `np.array([True]*len(toas))`. -/
def mjd_lower_mask (toas : TOAs) (v : PyVal) : List Bool :=
  if v.truthy then (get_mjds toas).map (fun m => decide (v.toRat < m))
  else List.replicate toas.table.length true

/-- The upper-bound mask of `apply_mjd_cut`: when the configured
`mjd-end` value is truthy, `toas.get_mjds() < mjd_max*u.d` (strict);
otherwise `np.array([True]*len(toas))`. -/
def mjd_upper_mask (toas : TOAs) (v : PyVal) : List Bool :=
  if v.truthy then (get_mjds toas).map (fun m => decide (m < v.toRat))
  else List.replicate toas.table.length true

/-- `apply_mjd_cut(toas, configDict)`: look up `configDict['ignore']`,
`['mjd-start']` and `['mjd-end']` (a missing key raises `KeyError`, start
before end), build the two masks, and apply their conjunction (`&`) in a
single `toas.select` call. The `summary` branch only prints. -/
def apply_mjd_cut (toas : TOAs) (configDict : Config) : Except String TOAs :=
  match configDict.ignore with
  | none => .error "KeyError: ignore"
  | some ig =>
    match ig.mjdStart with
    | none => .error "KeyError: mjd-start"
    | some vStart =>
      match ig.mjdEnd with
      | none => .error "KeyError: mjd-end"
      | some vEnd =>
        .ok (toas.select
          (List.zipWith (fun a b => a && b)
            (mjd_lower_mask toas vStart) (mjd_upper_mask toas vEnd)))

/-- `apply_snr_cut(toas, snr_cut)`:
`toas.select((np.array(toas.get_flag_value('snr')) > snr_cut)[0])` — row 0
of the elementwise comparison is the strict comparison of the flag values
against the threshold. The `summary` branch only prints. -/
def apply_snr_cut (toas : TOAs) (snr_cut : ℚ) : TOAs :=
  toas.select ((get_flag_value_snr toas).1.map (fun v => decide (snr_cut < v)))

/-- Does `s` start with `pat`? (char-list version, structural). -/
def startsWith : List Char → List Char → Bool
  | _, [] => true
  | [], _ :: _ => false
  | c :: cs, p :: ps => c == p && startsWith cs ps

/-- Does `pat` occur as a contiguous substring of `s`? -/
def containsSub (pat : List Char) : List Char → Bool
  | [] => startsWith [] pat
  | c :: cs => startsWith (c :: cs) pat || containsSub pat cs

/-- Python's `pat in s` substring test on strings. -/
def strContains (s pat : String) : Bool := containsSub pat.data s.data

/-- One `plt.errorbar(x, y, yerr, fmt="x", label=...)` call: a plotted data
series. -/
structure PlotElem where
  xs : List ℚ
  ys : List ℚ
  yerrs : List ℚ
  fmt : String
  label : String
deriving DecidableEq, Repr

/-- The payload of the `ValueError` raised by `plot_res`. -/
def plotResErr (restype : String) : String :=
  "Residual type (" ++ restype ++ ") not recognized. Try prefit/postfit."

/-- A `pint.fitter` object, as far as the code reads it: its `TOAs`, the
prefit (`resids_init`) and postfit (`resids`) time-residual arrays over the
full TOA set (already converted to microseconds), the `PSR` parameter value
and the `as_parfile()` serialization of its model. -/
structure Fitter where
  toas : TOAs
  resids_init : List ℚ
  resids : List ℚ
  psr : String
  parfile : String
deriving DecidableEq, Repr

/-- The per-observatory loop of `plot_res`: for each site, select its rows
(mask computed on the current table), add one errorbar series for the
chosen residual type, then `unselect`; an unrecognized `restype` raises
`ValueError` with the selection still applied. Returns the final state of
`fitter.toas` (the object is mutated in place in Python, so the state after
an exception is also returned) together with either the plotted series or
the error. -/
def plot_res_go (resids_init resids : List ℚ) (restype : String) :
    List String → TOAs → List PlotElem → TOAs × Except String (List PlotElem)
  | [], t, acc => (t, .ok acc)
  | obso :: rest, t, acc =>
    let select_array := (get_obss t).map (fun o => o == obso)
    let t1 := t.select select_array
    if strContains restype "pre" then
      plot_res_go resids_init resids restype rest t1.unselect
        (acc ++ [⟨get_mjds t1, applyMask resids_init select_array, get_errors t1, "x", obso⟩])
    else if strContains restype "post" then
      plot_res_go resids_init resids restype rest t1.unselect
        (acc ++ [⟨get_mjds t1, applyMask resids select_array, get_errors t1, "x", obso⟩])
    else (t1, .error (plotResErr restype))

/-- `plot_res(fitter, restype)`: iterate the per-observatory loop over
`list(fitter.toas.observatories)` starting from the current selection. -/
def plot_res (fitter : Fitter) (restype : String) : TOAs × Except String (List PlotElem) :=
  plot_res_go fitter.resids_init fitter.resids restype (observatories fitter.toas) fitter.toas []

/-- `numpy`'s `.max()` on the embedded array (junk value 0 on the empty
list, where numpy would raise). -/
def listMax : List ℚ → ℚ
  | [] => 0
  | x :: xs => xs.foldl max x

/-- `numpy`'s `.min()` on the embedded array. -/
def listMin : List ℚ → ℚ
  | [] => 0
  | x :: xs => xs.foldl min x

/-- The midpoint `(toas.get_mjds().value.max() + toas.get_mjds().value.min())/2.`
computed by `center_epochs`. -/
def midmjd (toas : TOAs) : ℚ := (listMax (get_mjds toas) + listMin (get_mjds toas)) / 2

/-- A `pint.model.TimingModel`, as far as the code touches it: the `PSR`
name, the mandatory `PEPOCH`, and the optional `POSEPOCH` / `DMEPOCH`
fields (`none` = the model lacks the field). -/
structure TimingModel where
  psr : String
  pepoch : ℚ
  posepoch : Option ℚ
  dmepoch : Option ℚ
deriving DecidableEq, Repr

/-- `model.change_pepoch(v)`: update the mandatory spin epoch. -/
def change_pepoch (m : TimingModel) (v : ℚ) : TimingModel := { m with pepoch := v }

/-- `model.change_posepoch(v)`: raises when the model lacks `POSEPOCH`. -/
def change_posepoch (m : TimingModel) (v : ℚ) : Except String TimingModel :=
  match m.posepoch with
  | some _ => .ok { m with posepoch := some v }
  | none => .error "AttributeError: POSEPOCH"

/-- `model.change_dmepoch(v)`: raises when the model lacks `DMEPOCH`. -/
def change_dmepoch (m : TimingModel) (v : ℚ) : Except String TimingModel :=
  match m.dmepoch with
  | some _ => .ok { m with dmepoch := some v }
  | none => .error "AttributeError: DMEPOCH"

/-- `center_epochs` with the three collaborator updates as parameters: the
call to `change_pepoch` is unguarded (its failure propagates), while the
`change_posepoch` and `change_dmepoch` calls each sit inside a bare
`try/except: pass`, so an error of ANY kind from them is swallowed and the
model as of before the failing call is kept. -/
def center_epochs_gen
    (pepUpd posUpd dmUpd : TimingModel → ℚ → Except String TimingModel)
    (model : TimingModel) (toas : TOAs) : Except String TimingModel :=
  match pepUpd model (midmjd toas) with
  | .error e => .error e
  | .ok m1 =>
    let m2 := match posUpd m1 (midmjd toas) with
      | .ok m => m
      | .error _ => m1
    let m3 := match dmUpd m2 (midmjd toas) with
      | .ok m => m
      | .error _ => m2
    .ok m3

/-- `center_epochs(model, toas)` with the concrete PINT collaborators
(`change_pepoch` itself is total here: the embedded model always has a
`PEPOCH` field). Returns the mutated model. -/
def center_epochs (model : TimingModel) (toas : TOAs) : TimingModel :=
  let m1 := change_pepoch model (midmjd toas)
  let m2 := match change_posepoch m1 (midmjd toas) with
    | .ok m => m
    | .error _ => m1
  match change_dmepoch m2 (midmjd toas) with
  | .ok m => m
  | .error _ => m2

/-- The filesystem: filename → contents of the file, if it exists. -/
def FS : Type := String → Option String

/-- `open(name,'w')` followed by writing `content`: create or overwrite. -/
def writeFile (fs : FS) (name content : String) : FS :=
  fun k => if k = name then some content else fs k

/-- Read a file's contents, `none` when absent. -/
def readFile (fs : FS) (name : String) : Option String := fs name

/-- The output filename `'%s_PINT_%s%s.par' % (source, date_str, addext)`
built by `write_par`. -/
def par_outfile (source date_str addext : String) : String :=
  source ++ "_PINT_" ++ date_str ++ addext ++ ".par"

/-- `write_par(fitter, addext)`: write `fitter.model.as_parfile()` to
`<PSR>_PINT_<date><addext>.par` in the working directory, overwriting.
`date_str` stands for `date.today().strftime('%Y%m%d')`. -/
def write_par (fitter : Fitter) (date_str addext : String) (fs : FS) : FS :=
  writeFile fs (par_outfile fitter.psr date_str addext) fitter.parfile

/-- The chunks written by the loop of `write_include_tim`: one
`f.write('INCLUDE %s\n' % tf)` per listed tim file, in order. -/
def include_chunks (tim_file_list : List String) : List String :=
  tim_file_list.map (fun tf => "INCLUDE " ++ tf ++ "\n")

/-- `write_include_tim(source, tim_file_list)`: write the INCLUDE manifest
to `'%s.tim' % source` and return that filename. -/
def write_include_tim (source : String) (tim_file_list : List String) (fs : FS) :
    String × FS :=
  let out_tim := source ++ ".tim"
  (out_tim, writeFile fs out_tim (String.join (include_chunks tim_file_list)))

/-! Concrete fixtures used to evaluate the embedded functions on small
inputs. -/

/-- A record observed at Arecibo. -/
def toaRec1 : Toa := ⟨50000, 1, "ao", 10⟩

/-- A record observed at Green Bank. -/
def toaRec2 : Toa := ⟨50010, 2, "gbt", 12⟩

/-- A two-record TOA set with no prior selection. -/
def toasPair : TOAs := ⟨[toaRec1, toaRec2], []⟩

/-- A record whose timestamp sits exactly on a window bound. -/
def toaEdge : Toa := ⟨5, 1, "ao", 8⟩

/-- A one-record TOA set whose only timestamp equals the lower bound. -/
def toasEdge : TOAs := ⟨[toaEdge], []⟩

/-- A configuration with `mjd-start` 5 and `mjd-end` 10, both present. -/
def cfgEdge : Config := ⟨some ⟨some (.pynum 5), some (.pynum 10)⟩⟩

/-- A fitter over `toasPair` with distinct pre/postfit residuals. -/
def fitterPair : Fitter := ⟨toasPair, [3, 4], [1, 2], "J0000+0000", "PSR J0000+0000"⟩

/-- A fitter whose TOA set is empty (zero observatories). -/
def fitterEmpty : Fitter := ⟨⟨[], []⟩, [], [], "J0000+0000", "PSR J0000+0000"⟩

/-- A model lacking both optional epoch fields. -/
def modelNoOpt : TimingModel := ⟨"J0000+0000", 55000, none, none⟩

/-- An empty filesystem. -/
def fsEmpty : FS := fun _ => none

/-! Auxiliary lemmas about masks and list extrema. -/

lemma applyMask_replicate_true {α : Type} (l : List α) :
    applyMask l (List.replicate l.length true) = l := by
  induction l with
  | nil => rfl
  | cons x xs ih => simp [applyMask, List.replicate, ih]

lemma applyMask_map {α : Type} (l : List α) (p : α → Bool) :
    applyMask l (l.map p) = l.filter p := by
  induction l with
  | nil => rfl
  | cons x xs ih =>
    by_cases h : p x = true <;> simp [applyMask, List.filter, h, ih]

lemma zipWith_and_left_true (u : List Bool) (n : ℕ) (h : u.length = n) :
    List.zipWith (fun a b => a && b) (List.replicate n true) u = u := by
  induction u generalizing n with
  | nil => simp
  | cons b bs ih =>
    cases n with
    | zero => simp at h
    | succ m =>
      simp only [List.length_cons, Nat.succ.injEq] at h
      simp [List.replicate, ih m h]

lemma zipWith_and_right_true (u : List Bool) (n : ℕ) (h : u.length = n) :
    List.zipWith (fun a b => a && b) u (List.replicate n true) = u := by
  induction u generalizing n with
  | nil => simp
  | cons b bs ih =>
    cases n with
    | zero => simp at h
    | succ m =>
      simp only [List.length_cons, Nat.succ.injEq] at h
      simp [List.replicate, ih m h]

lemma zipWith_and_map_map {α : Type} (l : List α) (p q : α → Bool) :
    List.zipWith (fun a b => a && b) (l.map p) (l.map q) =
      l.map (fun x => p x && q x) := by
  induction l with
  | nil => rfl
  | cons x xs ih => simp [ih]

lemma mjd_lower_mask_length (toas : TOAs) (v : PyVal) :
    (mjd_lower_mask toas v).length = toas.table.length := by
  by_cases h : v.truthy = true <;> simp [mjd_lower_mask, get_mjds, h]

lemma mjd_upper_mask_length (toas : TOAs) (v : PyVal) :
    (mjd_upper_mask toas v).length = toas.table.length := by
  by_cases h : v.truthy = true <;> simp [mjd_upper_mask, get_mjds, h]

lemma le_foldl_max (l : List ℚ) (a : ℚ) : a ≤ l.foldl max a := by
  induction l generalizing a with
  | nil => exact le_refl a
  | cons x xs ih => exact le_trans (le_max_left a x) (ih (max a x))

lemma mem_le_foldl_max (l : List ℚ) (a x : ℚ) (hx : x ∈ l) : x ≤ l.foldl max a := by
  induction l generalizing a with
  | nil => cases hx
  | cons y ys ih =>
    rcases List.mem_cons.mp hx with h | h
    · subst h
      exact le_trans (le_max_right a x) (le_foldl_max ys (max a x))
    · exact ih (max a y) h

lemma foldl_max_mem (l : List ℚ) (a : ℚ) : l.foldl max a = a ∨ l.foldl max a ∈ l := by
  induction l generalizing a with
  | nil => exact Or.inl rfl
  | cons x xs ih =>
    rcases ih (max a x) with h | h
    · rcases max_choice a x with hm | hm
      · exact Or.inl (by rw [List.foldl_cons, h, hm])
      · exact Or.inr (by rw [List.foldl_cons, h, hm]; exact List.mem_cons_self x xs)
    · exact Or.inr (List.mem_cons_of_mem x h)

lemma foldl_min_le (l : List ℚ) (a : ℚ) : l.foldl min a ≤ a := by
  induction l generalizing a with
  | nil => exact le_refl a
  | cons x xs ih => exact le_trans (ih (min a x)) (min_le_left a x)

lemma foldl_min_le_mem (l : List ℚ) (a x : ℚ) (hx : x ∈ l) : l.foldl min a ≤ x := by
  induction l generalizing a with
  | nil => cases hx
  | cons y ys ih =>
    rcases List.mem_cons.mp hx with h | h
    · subst h
      exact le_trans (foldl_min_le ys (min a x)) (min_le_right a x)
    · exact ih (min a y) h

lemma foldl_min_mem (l : List ℚ) (a : ℚ) : l.foldl min a = a ∨ l.foldl min a ∈ l := by
  induction l generalizing a with
  | nil => exact Or.inl rfl
  | cons x xs ih =>
    rcases ih (min a x) with h | h
    · rcases min_choice a x with hm | hm
      · exact Or.inl (by rw [List.foldl_cons, h, hm])
      · exact Or.inr (by rw [List.foldl_cons, h, hm]; exact List.mem_cons_self x xs)
    · exact Or.inr (List.mem_cons_of_mem x h)

lemma listMax_spec (l : List ℚ) (h : l ≠ []) :
    listMax l ∈ l ∧ ∀ x ∈ l, x ≤ listMax l := by
  cases l with
  | nil => exact absurd rfl h
  | cons a as =>
    constructor
    · rcases foldl_max_mem as a with hm | hm
      · rw [listMax, hm]; exact List.mem_cons_self a as
      · exact List.mem_cons_of_mem a hm
    · intro x hx
      rcases List.mem_cons.mp hx with hx | hx
      · subst hx; exact le_foldl_max as x
      · exact mem_le_foldl_max as a x hx

lemma listMin_spec (l : List ℚ) (h : l ≠ []) :
    listMin l ∈ l ∧ ∀ x ∈ l, listMin l ≤ x := by
  cases l with
  | nil => exact absurd rfl h
  | cons a as =>
    constructor
    · rcases foldl_min_mem as a with hm | hm
      · rw [listMin, hm]; exact List.mem_cons_self a as
      · exact List.mem_cons_of_mem a hm
    · intro x hx
      rcases List.mem_cons.mp hx with hx | hx
      · subst hx; exact foldl_min_le as x
      · exact foldl_min_le_mem as a x hx

lemma readFile_writeFile (fs : FS) (name content k : String) :
    readFile (writeFile fs name content) k =
      if k = name then some content else readFile fs k := rfl

lemma par_outfile_inj (source d e1 e2 : String)
    (h : par_outfile source d e1 = par_outfile source d e2) : e1 = e2 := by
  have hd : (par_outfile source d e1).data = (par_outfile source d e2).data := by rw [h]
  simp only [par_outfile, String.data_append] at hd
  exact String.ext (List.append_cancel_left (List.append_cancel_right hd))

/-! Claim theorems. -/

/-- C1 (counterexample): the time-window cut is NOT inclusive. With bounds
A = 5, B = 10 and a record whose timestamp is exactly A = 5 (so A ≤ t ≤ B
holds), re-querying the active selection after `apply_mjd_cut` yields the
empty list: the record at the bound is dropped, contradicting the claim
that it remains in the selection. -/
theorem C1_counterexample :
    Except.map TOAs.table (apply_mjd_cut toasEdge cfgEdge) = .ok [] ∧
    (5 : ℚ) ≤ toaEdge.mjd ∧ toaEdge.mjd ≤ (10 : ℚ) := by
  refine ⟨rfl, by decide, by decide⟩

/-- C1 (amended): for supplied (truthy, i.e. nonzero) bounds A and B, the
time-window cut followed by re-querying the active selection yields exactly
the records whose timestamp t satisfies A < t < B — both comparisons are
strict, so a record with t exactly equal to A or to B is removed. -/
theorem C1_strict_window (toas : TOAs) (A B : ℚ) (hA : A ≠ 0) (hB : B ≠ 0) :
    Except.map TOAs.table
        (apply_mjd_cut toas ⟨some ⟨some (.pynum A), some (.pynum B)⟩⟩) =
      .ok (toas.table.filter (fun r => decide (A < r.mjd) && decide (r.mjd < B))) := by
  have hA' : (PyVal.pynum A).truthy = true := by simp [PyVal.truthy, hA]
  have hB' : (PyVal.pynum B).truthy = true := by simp [PyVal.truthy, hB]
  simp only [apply_mjd_cut, mjd_lower_mask, mjd_upper_mask, hA', hB', if_true,
    PyVal.toRat, Except.map, TOAs.select, get_mjds, List.map_map]
  rw [zipWith_and_map_map, applyMask_map]
  simp only [Function.comp_apply]

/-- Witness for `C1_strict_window` at toasPair with bounds 1 and 60000. -/
theorem C1_strict_window_witness :
    Except.map TOAs.table
        (apply_mjd_cut toasPair ⟨some ⟨some (.pynum 1), some (.pynum 60000)⟩⟩) =
      .ok (toasPair.table.filter
        (fun r => decide ((1 : ℚ) < r.mjd) && decide (r.mjd < (60000 : ℚ)))) :=
  C1_strict_window toasPair 1 60000 (by norm_num) (by norm_num)

/-- C4: `write_include_tim` writes to the file named `<source>.tim`, its
content is the concatenation of one `INCLUDE <path>\n` chunk per input
filename in input order (so exactly N such lines for N inputs), and the
function returns that filename. -/
theorem C4_manifest (source : String) (l : List String) (fs : FS) :
    (write_include_tim source l fs).1 = source ++ ".tim" ∧
    readFile (write_include_tim source l fs).2 (source ++ ".tim") =
      some (String.join (include_chunks l)) ∧
    include_chunks l = l.map (fun tf => "INCLUDE " ++ tf ++ "\n") ∧
    (include_chunks l).length = l.length := by
  refine ⟨rfl, ?_, rfl, by simp [include_chunks]⟩
  simp [write_include_tim, readFile, writeFile]

/-- C5: the signal-to-noise cut selects exactly the records with snr
strictly greater than the threshold T; every record in the resulting
selection has snr > T, in particular no record with snr = T survives. -/
theorem C5_snr_cut (toas : TOAs) (T : ℚ) :
    (apply_snr_cut toas T).table = toas.table.filter (fun r => decide (T < r.snr)) ∧
    ∀ r ∈ (apply_snr_cut toas T).table, T < r.snr ∧ r.snr ≠ T := by
  have h : (apply_snr_cut toas T).table =
      toas.table.filter (fun r => decide (T < r.snr)) := by
    simp only [apply_snr_cut, TOAs.select, get_flag_value_snr, List.map_map]
    rw [applyMask_map]
    rfl
  refine ⟨h, fun r hr => ?_⟩
  rw [h] at hr
  have := (List.mem_filter.mp hr).2
  have hT : T < r.snr := of_decide_eq_true this
  exact ⟨hT, fun he => absurd he.symm (ne_of_lt hT)⟩

/-- Witness for `C5_snr_cut` at toasPair with threshold 10: the record with
snr exactly 10 is excluded, the record with snr 12 is kept. -/
theorem C5_snr_cut_witness :
    (apply_snr_cut toasPair 10).table =
      toasPair.table.filter (fun r => decide ((10 : ℚ) < r.snr)) ∧
    ∀ r ∈ (apply_snr_cut toasPair 10).table, (10 : ℚ) < r.snr ∧ r.snr ≠ 10 :=
  C5_snr_cut toasPair 10

/-- C6: the time-window cut computes the lower-bound and upper-bound masks
independently, each of the same length as the TOA set (an absent/falsy
bound giving an all-true mask), combines them with logical AND and applies
the conjunction in exactly one `select` call (the selection stack grows by
exactly one frame); with both bounds absent the combined mask is all-true
and the active selection is unchanged. -/
theorem C6_mask_conjunction (toas : TOAs) (a b : PyVal) :
    (mjd_lower_mask toas a).length = toas.table.length ∧
    (mjd_upper_mask toas b).length = toas.table.length ∧
    (a.truthy = false → mjd_lower_mask toas a = List.replicate toas.table.length true) ∧
    (b.truthy = false → mjd_upper_mask toas b = List.replicate toas.table.length true) ∧
    apply_mjd_cut toas ⟨some ⟨some a, some b⟩⟩ =
      .ok (toas.select
        (List.zipWith (fun x y => x && y) (mjd_lower_mask toas a) (mjd_upper_mask toas b))) ∧
    (∀ mask : List Bool, (toas.select mask).table_selects = toas.table :: toas.table_selects) ∧
    (a.truthy = false → b.truthy = false →
      Except.map TOAs.table (apply_mjd_cut toas ⟨some ⟨some a, some b⟩⟩) = .ok toas.table) := by
  refine ⟨mjd_lower_mask_length toas a, mjd_upper_mask_length toas b,
    fun ha => by simp [mjd_lower_mask, ha],
    fun hb => by simp [mjd_upper_mask, hb],
    rfl, fun mask => rfl, fun ha hb => ?_⟩
  simp only [apply_mjd_cut, Except.map, TOAs.select]
  rw [show mjd_lower_mask toas a = List.replicate toas.table.length true by
        simp [mjd_lower_mask, ha],
      show mjd_upper_mask toas b = List.replicate toas.table.length true by
        simp [mjd_upper_mask, hb],
      zipWith_and_left_true _ _ (by simp), applyMask_replicate_true]

/-- Witness for `C6_mask_conjunction` at toasPair with a `None` start bound
and a `False` end bound: the cut is a no-op on the table. -/
theorem C6_mask_conjunction_witness :
    Except.map TOAs.table
        (apply_mjd_cut toasPair ⟨some ⟨some .pynone, some (.pybool false)⟩⟩) =
      .ok toasPair.table :=
  (C6_mask_conjunction toasPair .pynone (.pybool false)).2.2.2.2.2.2 rfl rfl

/-- C8: whether a time-window bound is absent is decided by Python
truthiness — the values `0`, `None` and `False` are all falsy and impose no
restriction on their side — while the `ignore` sub-mapping and both the
`mjd-start` and `mjd-end` keys must be present: a missing key makes the
call fail with a `KeyError` instead of being treated as an absent bound. -/
theorem C8_truthiness_and_missing_keys (toas : TOAs) (ig : Ignore) (a b : PyVal) :
    PyVal.truthy (.pynum 0) = false ∧
    PyVal.truthy .pynone = false ∧
    PyVal.truthy (.pybool false) = false ∧
    apply_mjd_cut toas ⟨none⟩ = .error "KeyError: ignore" ∧
    apply_mjd_cut toas ⟨some ⟨none, ig.mjdEnd⟩⟩ = .error "KeyError: mjd-start" ∧
    apply_mjd_cut toas ⟨some ⟨some a, none⟩⟩ = .error "KeyError: mjd-end" ∧
    (a.truthy = false →
      Except.map TOAs.table (apply_mjd_cut toas ⟨some ⟨some a, some b⟩⟩) =
        .ok (applyMask toas.table (mjd_upper_mask toas b))) ∧
    (b.truthy = false →
      Except.map TOAs.table (apply_mjd_cut toas ⟨some ⟨some a, some b⟩⟩) =
        .ok (applyMask toas.table (mjd_lower_mask toas a))) := by
  refine ⟨by decide, rfl, rfl, rfl, rfl, rfl, fun ha => ?_, fun hb => ?_⟩
  · simp only [apply_mjd_cut, Except.map, TOAs.select]
    rw [show mjd_lower_mask toas a = List.replicate toas.table.length true by
          simp [mjd_lower_mask, ha],
        zipWith_and_left_true _ _ (mjd_upper_mask_length toas b)]
  · simp only [apply_mjd_cut, Except.map, TOAs.select]
    rw [show mjd_upper_mask toas b = List.replicate toas.table.length true by
          simp [mjd_upper_mask, hb],
        zipWith_and_right_true _ _ (mjd_lower_mask_length toas a)]

/-- Witness for `C8_truthiness_and_missing_keys`: at toasPair a zero
`mjd-start` bound imposes no lower restriction — only the upper mask acts. -/
theorem C8_truthiness_witness :
    Except.map TOAs.table
        (apply_mjd_cut toasPair ⟨some ⟨some (.pynum 0), some (.pynum 60000)⟩⟩) =
      .ok (applyMask toasPair.table (mjd_upper_mask toasPair (.pynum 60000))) :=
  (C8_truthiness_and_missing_keys toasPair ⟨none, none⟩ (.pynum 0) (.pynum 60000)).2.2.2.2.2.2.1
    (by decide)

/-- C2 (counterexample): at a fitter with two observatories and the
unrecognized mode "bogus", `plot_res` does raise `ValueError` and plots
nothing, but the active selection is NOT restored to unrestricted: the
table is left narrowed to the first observatory's single record, and the
selection stack is left holding the saved full table — contradicting the
claim that the selection is restored after the call. -/
theorem C2_counterexample :
    (plot_res fitterPair "bogus").2 = .error (plotResErr "bogus") ∧
    (plot_res fitterPair "bogus").1.table = [toaRec1] ∧
    fitterPair.toas.table = [toaRec1, toaRec2] ∧
    (plot_res fitterPair "bogus").1 ≠ fitterPair.toas := by
  refine ⟨rfl, rfl, rfl, by decide⟩

/-- C2 (amended): for every fitter whose TOA set has at least one
observatory, calling `plot_res` with a mode containing neither "pre" nor
"post" raises `ValueError` and produces no plot elements; the TOA Set's
selection is restored after each successful per-observatory iteration, but
on this failure it is NOT restored: the call leaves the selection narrowed
to the first observatory processed. (With zero observatories no error is
raised at all.) -/
theorem C2_invalid_restype (f : Fitter) (restype : String)
    (hpre : strContains restype "pre" = false)
    (hpost : strContains restype "post" = false)
    (o : String) (rest : List String)
    (hobs : observatories f.toas = o :: rest) :
    plot_res f restype =
      (f.toas.select ((get_obss f.toas).map (fun s => s == o)),
       .error (plotResErr restype)) := by
  simp [plot_res, hobs, plot_res_go, hpre, hpost]

/-- Witness for `C2_invalid_restype` at fitterPair with mode "bogus". -/
theorem C2_invalid_restype_witness :
    plot_res fitterPair "bogus" =
      (fitterPair.toas.select ((get_obss fitterPair.toas).map (fun s => s == "ao")),
       .error (plotResErr "bogus")) :=
  C2_invalid_restype fitterPair "bogus" rfl rfl "ao" ["gbt"] rfl

/-- C10: when the fitter's TOA set contains zero observatories, `plot_res`
returns normally — even for an unrecognized mode — without altering the
selection and without producing any plot element, because the
invalid-argument check sits inside the per-observatory loop, whose body
never runs. -/
theorem C10_no_observatories (f : Fitter) (restype : String)
    (h : observatories f.toas = []) :
    plot_res f restype = (f.toas, .ok []) := by
  simp [plot_res, h, plot_res_go]

/-- Witness for `C10_no_observatories` at the empty fitter with the
unrecognized mode "bogus". -/
theorem C10_no_observatories_witness :
    plot_res fitterEmpty "bogus" = (fitterEmpty.toas, .ok []) :=
  C10_no_observatories fitterEmpty "bogus" rfl

/-- C3: `center_epochs` sets the model's `PEPOCH` to exactly
`(t_min + t_max)/2` where `t_min`/`t_max` are the minimum/maximum
timestamps of the TOA set (the `listMax`/`listMin` conjuncts certify that
they really are the extrema); when the model lacks the optional `POSEPOCH`
and `DMEPOCH` fields those fields remain absent and no error is raised (the
function is total and returns); and the returned model is the input model
mutated in place — every field other than `pepoch` is unchanged. -/
theorem C3_center_epochs (m : TimingModel) (toas : TOAs)
    (hne : toas.table ≠ []) (hpos : m.posepoch = none) (hdm : m.dmepoch = none) :
    center_epochs m toas = { m with pepoch := midmjd toas } ∧
    midmjd toas = (listMax (get_mjds toas) + listMin (get_mjds toas)) / 2 ∧
    listMax (get_mjds toas) ∈ get_mjds toas ∧
    (∀ x ∈ get_mjds toas, x ≤ listMax (get_mjds toas)) ∧
    listMin (get_mjds toas) ∈ get_mjds toas ∧
    (∀ x ∈ get_mjds toas, listMin (get_mjds toas) ≤ x) ∧
    (center_epochs m toas).posepoch = none ∧
    (center_epochs m toas).dmepoch = none ∧
    (center_epochs m toas).psr = m.psr := by
  have hg : get_mjds toas ≠ [] := by
    simpa [get_mjds, List.map_eq_nil_iff] using hne
  have hc : center_epochs m toas = { m with pepoch := midmjd toas } := by
    simp [center_epochs, change_pepoch, change_posepoch, change_dmepoch, hpos, hdm]
  refine ⟨hc, rfl, (listMax_spec _ hg).1, (listMax_spec _ hg).2,
    (listMin_spec _ hg).1, (listMin_spec _ hg).2, ?_, ?_, ?_⟩
  · rw [hc]; exact hpos
  · rw [hc]; exact hdm
  · rw [hc]

/-- Witness for `C3_center_epochs`: on toasPair (timestamps 50000 and
50010) the model's `PEPOCH` becomes 50005 and nothing else changes. -/
theorem C3_center_epochs_witness :
    center_epochs modelNoOpt toasPair = { modelNoOpt with pepoch := midmjd toasPair } ∧
    midmjd toasPair = 50005 := by
  refine ⟨(C3_center_epochs modelNoOpt toasPair (by decide) rfl rfl).1, ?_⟩
  have h1 : listMax (get_mjds toasPair) = 50010 := by decide
  have h2 : listMin (get_mjds toasPair) = 50000 := by decide
  show (listMax (get_mjds toasPair) + listMin (get_mjds toasPair)) / 2 = 50005
  rw [h1, h2]; norm_num

/-- C9: in `center_epochs` the position-epoch and dispersion-measure-epoch
updates each sit inside a bare `try/except: pass`, so an error of ANY kind
from either collaborator (quantified here over arbitrary update functions
and arbitrary error payloads) is silently swallowed — the function still
returns the model as of before the failing call — while an error from the
unguarded `change_pepoch` call propagates unchanged to the caller. The
final conjunct ties the generalized form to the concrete `center_epochs`
of the program. -/
theorem C9_broad_suppression
    (pepUpd posUpd dmUpd : TimingModel → ℚ → Except String TimingModel)
    (m : TimingModel) (toas : TOAs) :
    (∀ e, pepUpd m (midmjd toas) = .error e →
      center_epochs_gen pepUpd posUpd dmUpd m toas = .error e) ∧
    (∀ m1 e1 e2, pepUpd m (midmjd toas) = .ok m1 →
      posUpd m1 (midmjd toas) = .error e1 → dmUpd m1 (midmjd toas) = .error e2 →
      center_epochs_gen pepUpd posUpd dmUpd m toas = .ok m1) ∧
    (∀ m1 e1 m2, pepUpd m (midmjd toas) = .ok m1 →
      posUpd m1 (midmjd toas) = .error e1 → dmUpd m1 (midmjd toas) = .ok m2 →
      center_epochs_gen pepUpd posUpd dmUpd m toas = .ok m2) ∧
    (∀ m1 m2 e2, pepUpd m (midmjd toas) = .ok m1 →
      posUpd m1 (midmjd toas) = .ok m2 → dmUpd m2 (midmjd toas) = .error e2 →
      center_epochs_gen pepUpd posUpd dmUpd m toas = .ok m2) ∧
    center_epochs_gen (fun mm v => .ok (change_pepoch mm v))
        change_posepoch change_dmepoch m toas = .ok (center_epochs m toas) := by
  refine ⟨fun e he => by simp [center_epochs_gen, he],
    fun m1 e1 e2 h1 h2 h3 => by simp [center_epochs_gen, h1, h2, h3],
    fun m1 e1 m2 h1 h2 h3 => by simp [center_epochs_gen, h1, h2, h3],
    fun m1 m2 e2 h1 h2 h3 => by simp [center_epochs_gen, h1, h2, h3], rfl⟩

/-- Witness for `C9_broad_suppression`: arbitrary non-attribute errors
("boom-pos", "boom-dm") from the two optional updates are swallowed and
`center_epochs_gen` still returns the pepoch-updated model. -/
theorem C9_broad_suppression_witness :
    center_epochs_gen (fun mm v => .ok (change_pepoch mm v))
        (fun _ _ => .error "boom-pos") (fun _ _ => .error "boom-dm")
        modelNoOpt toasPair =
      .ok (change_pepoch modelNoOpt (midmjd toasPair)) :=
  (C9_broad_suppression (fun mm v => .ok (change_pepoch mm v))
      (fun _ _ => .error "boom-pos") (fun _ _ => .error "boom-dm")
      modelNoOpt toasPair).2.1
    (change_pepoch modelNoOpt (midmjd toasPair)) "boom-pos" "boom-dm" rfl rfl rfl

/-- C7: `write_par` writes the model's parameter-file serialization to
`<PSR>_PINT_<date><addext>.par`, overwriting any existing file of that
name; the filename is injective in the suffix, so two same-day calls with
different suffixes leave two distinct files (each with its content), while
two calls with the same source, date and suffix leave exactly one file
holding the later content, every other filename untouched. -/
theorem C7_write_par (f g : Fitter) (d e1 e2 : String) (fs : FS) :
    readFile (write_par f d e1 fs) (par_outfile f.psr d e1) = some f.parfile ∧
    (e1 ≠ e2 → par_outfile f.psr d e1 ≠ par_outfile f.psr d e2) ∧
    (e1 ≠ e2 →
      readFile (write_par f d e2 (write_par f d e1 fs)) (par_outfile f.psr d e1) =
        some f.parfile ∧
      readFile (write_par f d e2 (write_par f d e1 fs)) (par_outfile f.psr d e2) =
        some f.parfile) ∧
    (g.psr = f.psr →
      readFile (write_par g d e1 (write_par f d e1 fs)) (par_outfile f.psr d e1) =
        some g.parfile ∧
      ∀ k, k ≠ par_outfile f.psr d e1 →
        readFile (write_par g d e1 (write_par f d e1 fs)) k = readFile fs k) := by
  have hinj : e1 ≠ e2 → par_outfile f.psr d e1 ≠ par_outfile f.psr d e2 :=
    fun hne h => hne (par_outfile_inj f.psr d e1 e2 h)
  refine ⟨by simp [write_par, readFile, writeFile], hinj, fun hne => ⟨?_, ?_⟩,
    fun hpsr => ⟨?_, fun k hk => ?_⟩⟩
  · simp [write_par, readFile, writeFile, (hinj hne).symm]
  · simp [write_par, readFile, writeFile]
  · simp [write_par, readFile, writeFile, hpsr]
  · simp [write_par, readFile, writeFile, hpsr, hk]

/-- Witness for `C7_write_par`: concrete same-day writes with suffixes ""
and "_v2" land in two distinct files; a repeated identical call leaves the
later content and touches no other filename. -/
theorem C7_write_par_witness :
    par_outfile "J0000+0000" "20261012" "" ≠ par_outfile "J0000+0000" "20261012" "_v2" ∧
    readFile (write_par fitterPair "20261012" "_v2"
        (write_par fitterPair "20261012" "" fsEmpty))
      (par_outfile "J0000+0000" "20261012" "") = some fitterPair.parfile ∧
    readFile (write_par fitterPair "20261012" ""
        (write_par fitterPair "20261012" "" fsEmpty))
      (par_outfile "J0000+0000" "20261012" "") = some fitterPair.parfile := by
  have h := C7_write_par fitterPair fitterPair "20261012" "" "_v2" fsEmpty
  have h2 := C7_write_par fitterPair fitterPair "20261012" "" "" fsEmpty
  exact ⟨h.2.1 (by decide), (h.2.2.1 (by decide)).1, (h2.2.2.2 rfl).1⟩
